import Mathlib

/-!
Shallow embedding of the scoring core of the Agriculture_simulator
application (files `agrovision/app.py` and `agrovision/ai_crop.py`).

Numeric modelling conventions:
* Python floats are modelled as exact rationals (`ℚ`).  The scoring
  pipeline only multiplies small integers by the decimal constants
  0.40/0.30/0.20/0.10 and 8, so the rational value coincides with the
  float value except for sub-ulp noise that is absorbed by rounding.
* Python `int(x)` on a float truncates toward zero: `pyInt`.
* Python `round(x)` (no digits argument) rounds half to even: `pyRound`.
* Python exceptions are modelled with `Except`/`Option`: a `none` or
  `.error` result marks the place where the Python code would raise.
-/

/-- Python truncation toward zero, the behaviour of `int(x)` on a float. -/
def pyInt (q : ℚ) : ℤ :=
  if 0 ≤ q then ⌊q⌋ else -⌊-q⌋

/-- Python `round(x)` with no second argument: round half to even. -/
def pyRound (q : ℚ) : ℤ :=
  if q - (⌊q⌋ : ℚ) < 1/2 then ⌊q⌋
  else if 1/2 < q - (⌊q⌋ : ℚ) then ⌊q⌋ + 1
  else if ⌊q⌋ % 2 = 0 then ⌊q⌋ else ⌊q⌋ + 1

/-- Source `app.py` line 22: `def clamp(n, lo, hi): return max(lo, min(hi, n))`. -/
def clamp (n lo hi : ℚ) : ℚ :=
  max lo (min hi n)

/-- Reads a maximal run of ASCII digits from the front of the list,
returning (value, number of digits, rest). -/
def takeDigits : List Char → ℕ × ℕ × List Char
  | [] => (0, 0, [])
  | c :: cs =>
    if c.isDigit then
      let (v, n, r) := takeDigits cs
      ((c.toNat - 48) * 10 ^ n + v, n + 1, r)
    else (0, 0, c :: cs)

/-- Optional sign followed by a nonempty digit run consuming the whole
input, as in the exponent part of a Python float literal. -/
def parseSignedDigits (cs : List Char) : Option ℤ :=
  let (neg, cs1) :=
    match cs with
    | '-' :: r => (true, r)
    | '+' :: r => (false, r)
    | r => (false, r)
  let (v, n, r) := takeDigits cs1
  if n = 0 ∨ r ≠ [] then none
  else some (if neg then -(v : ℤ) else (v : ℤ))

/-- Exponent suffix of a float literal: empty, or `e`/`E` then a signed
digit run. -/
def parseExpPart : List Char → Option ℤ
  | [] => some 0
  | 'e' :: r => parseSignedDigits r
  | 'E' :: r => parseSignedDigits r
  | _ => none

/-- Syntactic part of Python `float(s)` on finite decimal literals:
surrounding whitespace stripped, optional sign, digits with at most one
`.` (at least one digit overall), optional exponent.  Returns
(negative?, integer part, fraction digits value, fraction digit count,
exponent); `none` models the `ValueError` that `float` raises on
anything else.  (The `inf`/`nan` spellings and digit underscores
accepted by CPython have no rational value and never occur in the crop
database; they are out of scope.) -/
def floatRepr (cs0 : List Char) : Option (Bool × ℕ × ℕ × ℕ × ℤ) :=
  let cs1 := cs0.dropWhile Char.isWhitespace
  let cs2 := (cs1.reverse.dropWhile Char.isWhitespace).reverse
  let (neg, cs3) :=
    match cs2 with
    | '-' :: r => (true, r)
    | '+' :: r => (false, r)
    | r => (false, r)
  let (iv, ic, cs4) := takeDigits cs3
  let (fv, fc, cs5) :=
    match cs4 with
    | '.' :: r => takeDigits r
    | r => (0, 0, r)
  if ic + fc = 0 then none
  else
    match parseExpPart cs5 with
    | none => none
    | some e => some (neg, iv, fv, fc, e)

/-- Rational value of a parsed float literal. -/
def ratOfRepr (r : Bool × ℕ × ℕ × ℕ × ℤ) : ℚ :=
  let mag : ℚ := ((r.2.1 : ℚ) + (r.2.2.1 : ℚ) / (10 : ℚ) ^ r.2.2.2.1) * (10 : ℚ) ^ r.2.2.2.2
  if r.1 then -mag else mag

/-- Model of Python `float(s)`: parse, then evaluate to a rational. -/
def parsePyFloat (cs : List Char) : Option ℚ :=
  (floatRepr cs).map ratOfRepr

/-- Removes leftmost non-overlapping occurrences of the two-character
pattern `[a, b]`, the effect of Python `s.replace("°C", "")`. -/
def stripPair (a b : Char) : List Char → List Char
  | [] => []
  | [c] => [c]
  | c :: d :: rest =>
    if c = a ∧ d = b then stripPair a b rest
    else c :: stripPair a b (d :: rest)

/-- Source `app.py` line 29: the cleaning chain
`s.replace("°C", "").replace("C", "").replace(" ", "").replace("–", "-")`
(the single-character replacements delete every occurrence, and the
en dash becomes an ASCII hyphen). -/
def cleanTemp (s : List Char) : List Char :=
  ((((stripPair '°' 'C' s).filter (fun c => c ≠ 'C')).filter
      (fun c => c ≠ ' ')).map (fun c => if c = '–' then '-' else c))

/-- Source `app.py` lines 26-36, `parse_temp_range`: empty string, wrong token
count after splitting on `-`, or a `float` failure on either token all
fall back to `(0.0, 50.0)`. -/
def parse_temp_range (s : String) : ℚ × ℚ :=
  if s.data = [] then (0, 50)
  else
    match (cleanTemp s.data).splitOn '-' with
    | [a, b] =>
      match parsePyFloat a, parsePyFloat b with
      | some x, some y => (x, y)
      | _, _ => (0, 50)
    | _ => (0, 50)

/-- Source `app.py` lines 39-43, `temp_score`: 100 inside the ideal range,
otherwise `int(clamp(100 - d * 8, 0, 100))` where `d` is the distance
to the violated bound. -/
def temp_score (temp_c ideal_min ideal_max : ℚ) : ℤ :=
  if ideal_min ≤ temp_c ∧ temp_c ≤ ideal_max then 100
  else
    let d := if temp_c < ideal_min then ideal_min - temp_c else temp_c - ideal_max
    pyInt (clamp (100 - d * 8) 0 100)

/-- Source `app.py` lines 46-51, `risk_from_score`. -/
def risk_from_score (total : ℤ) : String × String :=
  if 75 ≤ total then ("Good", "success")
  else if 50 ≤ total then ("Moderate", "warning")
  else ("Risk", "danger")

/-- Crop reference record, the fields of `crop_data.json` used by the
scoring routes: acceptable soil types, required Nitrogen level
(`crop["nutrients"]["Nitrogen"]`), and the optimal-temperature string. -/
structure CropRecord where
  soil : List String
  nitrogen : String
  optimal_temp : String

/-- Weather snapshot extracted from the external API response:
`w["main"]["temp"]`, `w["weather"][0]["main"]`, the optional
`w["main"]["humidity"]` (default 50), and the optional 1-hour rain. -/
structure WeatherData where
  temp : ℚ
  condition : String
  humidity : Option ℚ
  rain1h : Option ℚ

/-- The `requests` exceptions relevant to the weather call.  `httpError`
is `requests.HTTPError` (raised by `raise_for_status`); connection and
timeout failures are distinct sibling exception classes. -/
inductive PyExc where
  | httpError
  | connectionError
  | timeoutError
deriving DecidableEq

/-- Outcome of the HTTP GET inside `fetch_weather`: a transport-level
exception, or a response with a status code and a decoded body. -/
inductive FetchOutcome where
  | transportError (e : PyExc)
  | response (status : ℕ) (body : WeatherData)

/-- Source `app.py` lines 54-59, `fetch_weather`: transport errors propagate,
`raise_for_status` raises `requests.HTTPError` exactly for client and
server error statuses, i.e. `400 <= status_code < 600`; any other
status (including >= 600) does not raise and the decoded body is
returned. -/
def fetch_weather : FetchOutcome → Except PyExc WeatherData
  | .transportError e => .error e
  | .response st b => if 400 ≤ st ∧ st < 600 then .error .httpError else .ok b

/-- Source `app.py` lines 379-384: the weighted total
`0.40 * weather + 0.30 * soil + 0.20 * nutrient + 0.10 * water`. -/
def composite_total (weather soil nutrient water : ℤ) : ℚ :=
  (40 / 100 : ℚ) * weather + (30 / 100 : ℚ) * soil +
    (20 / 100 : ℚ) * nutrient + (10 / 100 : ℚ) * water

/-- Source `app.py` line 385: `total_score = int(round(clamp(total, 0, 100)))`
(Python `round` already yields an int, so the outer `int` is identity). -/
def composite_score (weather soil nutrient water : ℤ) : ℤ :=
  pyRound (clamp (composite_total weather soil nutrient water) 0 100)

/-- The `weather_result` dict built at `app.py` lines 388-402, together
with the four raw sub-scores it was computed from. -/
structure WeatherResult where
  temp_c : ℚ
  condition : String
  total_score : ℤ
  risk_label : String
  risk_color : String
  weather_component : ℤ
  soil_component : ℤ
  nutrient_component : ℤ
  water_component : ℤ
  breakdown_weather : ℤ
  breakdown_soil : ℤ
  breakdown_nutrient : ℤ
  breakdown_water : ℤ

/-- Source `app.py` lines 348-410, the scoring part of the `weather_check`
route after the crop record is found.  `except requests.HTTPError`
catches only `httpError` (yielding `.ok none`: a flash message and no
scoring result); any other exception from the fetch propagates
(`.error`).  On success the four sub-scores, the composite total and
the risk label are computed. -/
def weather_check (crop : CropRecord) (soil_type nutrient_level : String)
    (fetched : FetchOutcome) : Except PyExc (Option WeatherResult) :=
  match fetch_weather fetched with
  | .error .httpError => .ok none
  | .error e => .error e
  | .ok w =>
    let temp_c := w.temp
    let humidity := w.humidity.getD 50
    let p := parse_temp_range crop.optimal_temp
    let weather_component := temp_score temp_c p.1 p.2
    let soil_component : ℤ := if soil_type ∈ crop.soil then 100 else 30
    let nutrient_component : ℤ := if nutrient_level = crop.nitrogen then 100 else 40
    let rain_mm := w.rain1h.getD 0
    let water_component : ℤ := if 0 < rain_mm ∨ 60 ≤ humidity then 90 else 50
    let total_score :=
      composite_score weather_component soil_component nutrient_component water_component
    let rl := risk_from_score total_score
    .ok (some {
      temp_c := temp_c
      condition := w.condition
      total_score := total_score
      risk_label := rl.1
      risk_color := rl.2
      weather_component := weather_component
      soil_component := soil_component
      nutrient_component := nutrient_component
      water_component := water_component
      breakdown_weather := pyRound ((40 / 100 : ℚ) * weather_component)
      breakdown_soil := pyRound ((30 / 100 : ℚ) * soil_component)
      breakdown_nutrient := pyRound ((20 / 100 : ℚ) * nutrient_component)
      breakdown_water := pyRound ((10 / 100 : ℚ) * water_component) })

/-- ASCII lower-casing, the effect of Python `str.lower()` on the ASCII
range (all suspicious keywords and crop labels are ASCII). -/
def pyLower (l : List Char) : List Char :=
  l.map Char.toLower

/-- Python substring test `needle in hay` (for strings). -/
def substrIn (needle : List Char) : List Char → Bool
  | [] => needle.isEmpty
  | c :: rest => needle.isPrefixOf (c :: rest) || substrIn needle rest

/-- Source `app.py` line 451: the fixed suspicious-keyword list. -/
def suspicious_keywords : List String :=
  ["guaranteed", "double money", "risk free", "100% profit", "instant return"]

/-- Source `app.py` lines 452-456: the accumulation loop, 25 points per
keyword found in the lower-cased description. -/
def risk_score_raw (description : String) : ℤ :=
  let desc_lower := pyLower description.data
  suspicious_keywords.foldl
    (fun acc w => if substrIn w.data desc_lower then acc + 25 else acc) 0

/-- Source `app.py` line 457: `risk_score = int(clamp(risk_score, 0, 100))`. -/
def campaign_risk_score (description : String) : ℤ :=
  pyInt (clamp ((risk_score_raw description : ℚ)) 0 100)

/-- Source `app.py` lines 459-464: the three-way trust label on the clamped
risk score. -/
def trust_label (risk : ℤ) : String :=
  if risk = 0 then "High Trust"
  else if risk ≤ 25 then "Moderate Risk"
  else "High Risk"

/-- The (risk score, trust label) pair stored by `create_fund`. -/
def create_fund_assessment (description : String) : ℤ × String :=
  let rs := campaign_risk_score description
  (rs, trust_label rs)

/-- Number of suspicious keywords occurring in the lower-cased
description (each loop iteration of `create_fund` adds 25 exactly when
its keyword matches, so the accumulated score is 25 times this count). -/
def matched_count (description : String) : ℕ :=
  suspicious_keywords.countP (fun w => substrIn w.data (pyLower description.data))

/-- One entry of the classifier output `decode_predictions(...)[0]`:
an ImageNet id, a label, and a probability. -/
structure TopEntry where
  imagenet_id : String
  label : String
  prob : ℚ

/-- Source `ai_crop.py` lines 16-23: the result dataclass. -/
structure CropResult where
  crop : String
  scientific : String
  confidence : ℤ
  raw_label : String
  is_plant : Bool
  suggestions : List String

/-- Source `ai_crop.py` lines 26-32: the crop → scientific-name table, in
insertion order. -/
def NEPAL_CROPS : List (String × String) :=
  [("Rice", "Oryza sativa"), ("Wheat", "Triticum aestivum"),
   ("Maize", "Zea mays"), ("Potato", "Solanum tuberosum"),
   ("Tomato", "Solanum lycopersicum")]

/-- Source `ai_crop.py` lines 35-39: plant hint words. -/
def PLANT_HINTS : List String :=
  ["plant", "leaf", "flora", "flower", "tree", "corn", "maize",
   "wheat", "rice", "grass", "mushroom", "vegetable", "fruit",
   "tomato", "potato", "cucumber", "pepper", "banana"]

/-- Source `ai_crop.py` lines 42-54: the label → crop map, in insertion
order. -/
def LABEL_MAP : List (String × String) :=
  [("corn", "Maize"), ("maize", "Maize"), ("ear", "Maize"),
   ("corncob", "Maize"), ("wheat", "Wheat"), ("grain", "Wheat"),
   ("rice", "Rice"), ("paddy", "Rice"), ("potato", "Potato"),
   ("mashed_potato", "Potato"), ("tomato", "Tomato")]

/-- Python `label.replace("_", " ")`. -/
def underscoreToSpace (l : List Char) : List Char :=
  l.map (fun c => if c = '_' then ' ' else c)

/-- Source `ai_crop.py` lines 64-70, `_looks_like_plant`: some top label with
probability at least 0.10 contains a plant hint (after lower-casing and
turning underscores into spaces). -/
def looks_like_plant (top : List TopEntry) : Bool :=
  top.any (fun t =>
    let key := underscoreToSpace (pyLower t.label.data)
    decide ((1/10 : ℚ) ≤ t.prob) && PLANT_HINTS.any (fun h => substrIn h.data key))

/-- Python `scores[crop] += prob` on the association list (every value
of `LABEL_MAP` is a key of `scores`, so the dict update never fails). -/
def update_score (scores : List (String × ℚ)) (crop : String) (p : ℚ) :
    List (String × ℚ) :=
  scores.map (fun e => if e.1 = crop then (e.1, e.2 + p) else e)

/-- The inner loop of `_crop_suggestions` for one classifier entry:
every `LABEL_MAP` key contained in the lower-cased label adds the
entry's probability to that crop's score. -/
def add_label_scores (scores : List (String × ℚ)) (t : TopEntry) :
    List (String × ℚ) :=
  let key := pyLower t.label.data
  LABEL_MAP.foldl
    (fun sc km => if substrIn km.1.data key then update_score sc km.2 t.prob else sc)
    scores

/-- Source `ai_crop.py` lines 73-89, `_crop_suggestions`: accumulate per-crop
scores, sort descending (Python `sorted(..., reverse=True)` is stable,
as is `mergeSort`), keep up to 3 names with positive score, and fall
back to `["Rice", "Maize", "Wheat"]` when that list is empty. -/
def crop_suggestions (top : List TopEntry) : List String :=
  let init := NEPAL_CROPS.map (fun p => (p.1, (0 : ℚ)))
  let scores := top.foldl add_label_scores init
  let ranked := scores.mergeSort (fun x y => decide (y.2 ≤ x.2))
  let sug := ((ranked.filter (fun e => decide (0 < e.2))).map (fun e => e.1)).take 3
  if sug = [] then ["Rice", "Maize", "Wheat"] else sug

/-- Source `ai_crop.py` lines 92-125, `predict_crop`, from the classifier
output onward.  `none` models the `IndexError` Python would raise on an
empty ranked list (`top[0]`, or `suggestions[0]` when the plant flag is
set — the conditional expression evaluates the subscript lazily). -/
def predict_crop (top : List TopEntry) : Option CropResult :=
  match top with
  | [] => none
  | t0 :: _ =>
    let best_label := String.mk (underscoreToSpace t0.label.data)
    let best_prob := t0.prob
    let is_plant := looks_like_plant top
    let suggestions := crop_suggestions top
    let chosenOpt := if is_plant then suggestions.head? else some "Unknown"
    match chosenOpt with
    | none => none
    | some chosen =>
      some {
        crop := chosen
        scientific := (NEPAL_CROPS.lookup chosen).getD "Unknown"
        confidence := pyRound (best_prob * 100)
        raw_label := best_label
        is_plant := is_plant
        suggestions := suggestions }

lemma le_clamp_lo (n lo hi : ℚ) : lo ≤ clamp n lo hi :=
  le_max_left _ _

lemma clamp_le_hi (n lo hi : ℚ) (h : lo ≤ hi) : clamp n lo hi ≤ hi :=
  max_le h (min_le_left _ _)

lemma clamp_mono {n n' : ℚ} (lo hi : ℚ) (h : n ≤ n') :
    clamp n lo hi ≤ clamp n' lo hi :=
  max_le_max le_rfl (min_le_min le_rfl h)

lemma clamp_eq_lo {n lo hi : ℚ} (h : n ≤ lo) : clamp n lo hi = lo :=
  max_eq_left (le_trans (min_le_right _ _) h)

lemma clamp_eq_self {n lo hi : ℚ} (h1 : lo ≤ n) (h2 : n ≤ hi) :
    clamp n lo hi = n := by
  unfold clamp
  rw [min_eq_right h2, max_eq_right h1]

lemma pyInt_of_nonneg {q : ℚ} (h : 0 ≤ q) : pyInt q = ⌊q⌋ :=
  if_pos h

lemma pyInt_intCast (n : ℤ) : pyInt (n : ℚ) = n := by
  unfold pyInt
  split_ifs with h
  · exact Int.floor_intCast n
  · rw [← Int.cast_neg, Int.floor_intCast]; ring

lemma pyRound_intCast (n : ℤ) : pyRound (n : ℚ) = n := by
  unfold pyRound
  rw [Int.floor_intCast, sub_self]
  norm_num

lemma pyRound_mono {a b : ℚ} (h : a ≤ b) : pyRound a ≤ pyRound b := by
  unfold pyRound
  have hf : ⌊a⌋ ≤ ⌊b⌋ := Int.floor_mono h
  rcases eq_or_lt_of_le hf with he | hl
  · have hr : a - (⌊a⌋ : ℚ) ≤ b - (⌊b⌋ : ℚ) := by
      rw [← he]; linarith
    split_ifs <;> first | omega | (exfalso; linarith)
  · split_ifs <;> omega

lemma pyInt_clamp_bounds (x : ℚ) :
    0 ≤ pyInt (clamp x 0 100) ∧ pyInt (clamp x 0 100) ≤ 100 := by
  have h0 : (0 : ℚ) ≤ clamp x 0 100 := le_clamp_lo _ _ _
  have h1 : clamp x 0 100 ≤ 100 := clamp_le_hi _ _ _ (by norm_num)
  rw [pyInt_of_nonneg h0]
  constructor
  · exact Int.le_floor.mpr (by exact_mod_cast h0)
  · have := Int.floor_mono h1
    rwa [show ((100 : ℚ)) = ((100 : ℤ) : ℚ) by norm_num, Int.floor_intCast] at this

lemma pyRound_clamp_bounds (x : ℚ) :
    0 ≤ pyRound (clamp x 0 100) ∧ pyRound (clamp x 0 100) ≤ 100 := by
  have h0 : (0 : ℚ) ≤ clamp x 0 100 := le_clamp_lo _ _ _
  have h1 : clamp x 0 100 ≤ 100 := clamp_le_hi _ _ _ (by norm_num)
  constructor
  · have := pyRound_mono h0
    rwa [show ((0 : ℚ)) = ((0 : ℤ) : ℚ) by norm_num, pyRound_intCast] at this
  · have := pyRound_mono h1
    rwa [show ((100 : ℚ)) = ((100 : ℤ) : ℚ) by norm_num, pyRound_intCast] at this

lemma temp_score_below {t mn mx : ℚ} (h : t < mn) :
    temp_score t mn mx = pyInt (clamp (100 - (mn - t) * 8) 0 100) := by
  have hno : ¬(mn ≤ t ∧ t ≤ mx) := fun hc => absurd h (not_lt.mpr hc.1)
  simp only [temp_score]
  rw [if_neg hno, if_pos h]

lemma temp_score_above {t mn mx : ℚ} (h1 : mx < t) (h2 : mn ≤ t) :
    temp_score t mn mx = pyInt (clamp (100 - (t - mx) * 8) 0 100) := by
  have hno : ¬(mn ≤ t ∧ t ≤ mx) := fun hc => absurd h1 (not_lt.mpr hc.2)
  simp only [temp_score]
  rw [if_neg hno, if_neg (not_lt.mpr h2)]

lemma temp_score_bounds (t mn mx : ℚ) :
    0 ≤ temp_score t mn mx ∧ temp_score t mn mx ≤ 100 := by
  simp only [temp_score]
  split_ifs
  · norm_num
  · exact pyInt_clamp_bounds _
  · exact pyInt_clamp_bounds _

lemma pyInt_clamp_val {v : ℚ} (h1 : 0 ≤ v) (h2 : v ≤ 100) :
    pyInt (clamp v 0 100) = ⌊v⌋ := by
  rw [clamp_eq_self h1 h2, pyInt_of_nonneg h1]

/-- C1: for `idealMin ≤ t ≤ idealMax` the score is 100; below the range
it is `int(clamp(100 - 8*(idealMin - t), 0, 100))`, above the range
`int(clamp(100 - 8*(t - idealMax), 0, 100))` (the distance to the
violated bound, 8 points per degree, clamped — Python `int` truncates
the clamped value, which is what makes the result an integer); and the
result always lies in [0, 100]. -/
theorem temp_score_contract (t mn mx : ℚ) (h : mn ≤ mx) :
    (mn ≤ t → t ≤ mx → temp_score t mn mx = 100) ∧
    (t < mn → temp_score t mn mx = pyInt (clamp (100 - (mn - t) * 8) 0 100)) ∧
    (mx < t → temp_score t mn mx = pyInt (clamp (100 - (t - mx) * 8) 0 100)) ∧
    0 ≤ temp_score t mn mx ∧ temp_score t mn mx ≤ 100 := by
  refine ⟨fun h1 h2 => ?_, fun h1 => temp_score_below h1,
    fun h1 => temp_score_above h1 (le_trans h (le_of_lt h1)),
    (temp_score_bounds t mn mx).1, (temp_score_bounds t mn mx).2⟩
  simp only [temp_score]
  rw [if_pos ⟨h1, h2⟩]

/-- Witness for `temp_score_contract` at `t = 25`, range [20, 30]. -/
theorem temp_score_contract_witness : temp_score 25 20 30 = 100 :=
  (temp_score_contract 25 20 30 (by norm_num)).1 (by norm_num) (by norm_num)

/-- C2 counterexample: at exactly 8 degrees above the range [20, 30]
the score is `100 - 8*8 = 36`, not 0 as the claim states. -/
theorem temp_score_eight_deg_cex :
    temp_score (30 + 8) 20 30 = 36 ∧ temp_score (30 + 8) 20 30 ≠ 0 := by
  have h : temp_score (30 + 8 : ℚ) 20 30 = 36 := by
    rw [temp_score_above (by norm_num) (by norm_num)]
    norm_num [clamp, pyInt]
  exact ⟨h, by rw [h]; norm_num⟩

lemma pyInt_clamp_zero_iff (v : ℚ) : pyInt (clamp v 0 100) = 0 ↔ v < 1 := by
  constructor
  · intro h
    by_contra hv
    push_neg at hv
    have h1 : (1 : ℚ) ≤ clamp v 0 100 :=
      le_trans (le_min (by norm_num) hv) (le_max_right _ _)
    have h2 : (1 : ℤ) ≤ pyInt (clamp v 0 100) := by
      rw [pyInt_of_nonneg (le_trans (by norm_num) h1)]
      exact Int.le_floor.mpr (by exact_mod_cast h1)
    omega
  · intro hv
    by_cases h0 : v ≤ 0
    · rw [clamp_eq_lo h0, pyInt_of_nonneg le_rfl]
      exact Int.floor_zero
    · push_neg at h0
      rw [clamp_eq_self (le_of_lt h0) (by linarith), pyInt_of_nonneg (le_of_lt h0)]
      exact Int.floor_eq_zero_iff.mpr ⟨le_of_lt h0, hv⟩

/-- C2 amended: a temperature exactly 8 degrees outside the range (on
either side) scores 36, not 0; a 1-degree deviation scores 92 as
claimed; and for a temperature outside the range the score is 0 exactly
when the deviation exceeds 99/8 = 12.375 degrees, the point where the
truncated value `int(clamp(100 - 8*d, 0, 100))` drops to 0. -/
theorem temp_score_deviation_amended (mn mx : ℚ) (h : mn ≤ mx) :
    temp_score (mx + 8) mn mx = 36 ∧
    temp_score (mn - 8) mn mx = 36 ∧
    temp_score (mx + 1) mn mx = 92 ∧
    temp_score (mn - 1) mn mx = 92 ∧
    (∀ t, mx < t → (temp_score t mn mx = 0 ↔ mx + 99/8 < t)) ∧
    (∀ t, t < mn → (temp_score t mn mx = 0 ↔ t < mn - 99/8)) := by
  refine ⟨?_, ?_, ?_, ?_, fun t ht => ?_, fun t ht => ?_⟩
  · rw [temp_score_above (by linarith) (by linarith)]
    have hv : (100 : ℚ) - (mx + 8 - mx) * 8 = 36 := by ring
    rw [hv, pyInt_clamp_val (by norm_num) (by norm_num)]
    norm_num
  · rw [temp_score_below (by linarith)]
    have hv : (100 : ℚ) - (mn - (mn - 8)) * 8 = 36 := by ring
    rw [hv, pyInt_clamp_val (by norm_num) (by norm_num)]
    norm_num
  · rw [temp_score_above (by linarith) (by linarith)]
    have hv : (100 : ℚ) - (mx + 1 - mx) * 8 = 92 := by ring
    rw [hv, pyInt_clamp_val (by norm_num) (by norm_num)]
    norm_num
  · rw [temp_score_below (by linarith)]
    have hv : (100 : ℚ) - (mn - (mn - 1)) * 8 = 92 := by ring
    rw [hv, pyInt_clamp_val (by norm_num) (by norm_num)]
    norm_num
  · rw [temp_score_above ht (by linarith), pyInt_clamp_zero_iff]
    constructor <;> intro hz <;> linarith
  · rw [temp_score_below ht, pyInt_clamp_zero_iff]
    constructor <;> intro hz <;> linarith

/-- Witness for `temp_score_deviation_amended` on the range [20, 30]:
8 degrees out scores 36; a deviation of 12.4 already scores 0, while
one of exactly 12.375 does not. -/
theorem temp_score_deviation_amended_witness :
    temp_score (30 + 8) 20 30 = 36 ∧
    temp_score (30 + 62/5) 20 30 = 0 ∧
    temp_score (30 + 99/8) 20 30 ≠ 0 :=
  ⟨(temp_score_deviation_amended 20 30 (by norm_num)).1,
   ((temp_score_deviation_amended 20 30 (by norm_num)).2.2.2.2.1 (30 + 62/5)
      (by norm_num)).mpr (by norm_num),
   fun hz => by
     have hlt := ((temp_score_deviation_amended 20 30 (by norm_num)).2.2.2.2.1
       (30 + 99/8) (by norm_num)).mp hz
     norm_num at hlt⟩

lemma composite_total_cast (w s n wa : ℤ) :
    composite_total w s n wa =
      (40 / 100 : ℚ) * (w : ℚ) + (30 / 100 : ℚ) * (s : ℚ) +
        (20 / 100 : ℚ) * (n : ℚ) + (10 / 100 : ℚ) * (wa : ℚ) := rfl

/-- C3: the composite suitability score
`int(round(clamp(0.40*weather + 0.30*soil + 0.20*nutrient + 0.10*water, 0, 100)))`
is monotonically non-decreasing in each of the four sub-scores with the
other three held fixed, and always lies in [0, 100]. -/
theorem composite_score_monotone_bounded :
    (∀ w w' s n wa : ℤ, w ≤ w' →
      composite_score w s n wa ≤ composite_score w' s n wa) ∧
    (∀ w s s' n wa : ℤ, s ≤ s' →
      composite_score w s n wa ≤ composite_score w s' n wa) ∧
    (∀ w s n n' wa : ℤ, n ≤ n' →
      composite_score w s n wa ≤ composite_score w s n' wa) ∧
    (∀ w s n wa wa' : ℤ, wa ≤ wa' →
      composite_score w s n wa ≤ composite_score w s n wa') ∧
    (∀ w s n wa : ℤ,
      0 ≤ composite_score w s n wa ∧ composite_score w s n wa ≤ 100) := by
  refine ⟨fun w w' s n wa h => pyRound_mono (clamp_mono _ _ ?_),
    fun w s s' n wa h => pyRound_mono (clamp_mono _ _ ?_),
    fun w s n n' wa h => pyRound_mono (clamp_mono _ _ ?_),
    fun w s n wa wa' h => pyRound_mono (clamp_mono _ _ ?_),
    fun w s n wa => pyRound_clamp_bounds _⟩
  · rw [composite_total_cast, composite_total_cast]
    have hc : (w : ℚ) ≤ (w' : ℚ) := by exact_mod_cast h
    linarith
  · rw [composite_total_cast, composite_total_cast]
    have hc : (s : ℚ) ≤ (s' : ℚ) := by exact_mod_cast h
    linarith
  · rw [composite_total_cast, composite_total_cast]
    have hc : (n : ℚ) ≤ (n' : ℚ) := by exact_mod_cast h
    linarith
  · rw [composite_total_cast, composite_total_cast]
    have hc : (wa : ℚ) ≤ (wa' : ℚ) := by exact_mod_cast h
    linarith

/-- Witness for `composite_score_monotone_bounded` at the sub-scores of
the end-to-end example (weather raised from 60 to 100). -/
theorem composite_score_monotone_bounded_witness :
    composite_score 60 30 40 50 ≤ composite_score 100 30 40 50 ∧
    0 ≤ composite_score 60 30 40 50 ∧ composite_score 60 30 40 50 ≤ 100 :=
  ⟨composite_score_monotone_bounded.1 60 100 30 40 50 (by norm_num),
   (composite_score_monotone_bounded.2.2.2.2 60 30 40 50).1,
   (composite_score_monotone_bounded.2.2.2.2 60 30 40 50).2⟩

lemma risk_fold_eq (p : String → Bool) (l : List String) (acc : ℤ) :
    l.foldl (fun a w => if p w then a + 25 else a) acc =
      acc + 25 * (l.countP p : ℤ) := by
  induction l generalizing acc with
  | nil => simp
  | cons x xs ih =>
    by_cases hx : p x
    · rw [List.foldl_cons, if_pos hx, ih, List.countP_cons, if_pos hx]
      push_cast
      ring
    · rw [List.foldl_cons, if_neg hx, ih, List.countP_cons, if_neg hx]
      push_cast
      ring

lemma risk_score_raw_eq (d : String) :
    risk_score_raw d = 25 * (matched_count d : ℤ) := by
  unfold risk_score_raw matched_count
  rw [risk_fold_eq]
  ring

lemma campaign_risk_score_eq (d : String) :
    campaign_risk_score d = min (25 * (matched_count d : ℤ)) 100 := by
  unfold campaign_risk_score
  rw [risk_score_raw_eq]
  have h0 : (0 : ℚ) ≤ ((25 * (matched_count d : ℤ) : ℤ) : ℚ) := by positivity
  have hcl : clamp ((25 * (matched_count d : ℤ) : ℤ) : ℚ) 0 100 =
      ((min (25 * (matched_count d : ℤ)) 100 : ℤ) : ℚ) := by
    unfold clamp
    rw [max_eq_right (le_min (by norm_num) h0)]
    push_cast
    rw [min_comm]
  rw [hcl, pyInt_intCast]

lemma trust_label_iff (r : ℤ) :
    (trust_label r = "High Trust" ↔ r = 0) ∧
    (trust_label r = "Moderate Risk" ↔ (r ≠ 0 ∧ r ≤ 25)) ∧
    (trust_label r = "High Risk" ↔ (r ≠ 0 ∧ 25 < r)) := by
  unfold trust_label
  split_ifs with h1 h2
  · subst h1
    refine ⟨by simp, ?_, ?_⟩
    · constructor
      · intro hs; exact absurd hs (by decide)
      · intro hm; exact absurd rfl hm.1
    · constructor
      · intro hs; exact absurd hs (by decide)
      · intro hm; exact absurd rfl hm.1
  · refine ⟨?_, ?_, ?_⟩
    · constructor
      · intro hs; exact absurd hs (by decide)
      · intro h0; exact absurd h0 h1
    · constructor
      · intro _; exact ⟨h1, h2⟩
      · intro _; rfl
    · constructor
      · intro hs; exact absurd hs (by decide)
      · intro hm; exact absurd hm.2 (not_lt.mpr h2)
  · refine ⟨?_, ?_, ?_⟩
    · constructor
      · intro hs; exact absurd hs (by decide)
      · intro h0; exact absurd h0 h1
    · constructor
      · intro hs; exact absurd hs (by decide)
      · intro hm; exact absurd hm.2 h2
    · constructor
      · intro _; exact ⟨h1, by omega⟩
      · intro _; rfl

/-- C4: the campaign risk score equals 25 times the number of matching
suspicious phrases, clamped to [0, 100]; the trust label is
"High Trust" iff the score is 0, "Moderate Risk" iff it lies in 1..25,
"High Risk" iff it exceeds 25; the sample description scores 75 with
label "High Risk"; and the score never exceeds 100. -/
theorem create_fund_trust_contract :
    (∀ d : String,
      campaign_risk_score d = min (25 * (matched_count d : ℤ)) 100 ∧
      0 ≤ campaign_risk_score d ∧ campaign_risk_score d ≤ 100 ∧
      (trust_label (campaign_risk_score d) = "High Trust" ↔
        campaign_risk_score d = 0) ∧
      (trust_label (campaign_risk_score d) = "Moderate Risk" ↔
        (1 ≤ campaign_risk_score d ∧ campaign_risk_score d ≤ 25)) ∧
      (trust_label (campaign_risk_score d) = "High Risk" ↔
        25 < campaign_risk_score d) ∧
      create_fund_assessment d =
        (campaign_risk_score d, trust_label (campaign_risk_score d))) ∧
    create_fund_assessment "Guaranteed 100% profit, risk free" =
      (75, "High Risk") := by
  have key : ∀ d : String, 0 ≤ campaign_risk_score d := by
    intro d
    rw [campaign_risk_score_eq]
    omega
  constructor
  · intro d
    have h0 := key d
    have hle : campaign_risk_score d ≤ 100 := by rw [campaign_risk_score_eq]; omega
    refine ⟨campaign_risk_score_eq d, h0, hle, ?_, ?_, ?_, rfl⟩
    · exact (trust_label_iff (campaign_risk_score d)).1
    · rw [(trust_label_iff (campaign_risk_score d)).2.1]
      omega
    · rw [(trust_label_iff (campaign_risk_score d)).2.2]
      omega
  · have hc : matched_count "Guaranteed 100% profit, risk free" = 3 := by decide
    have hrs : campaign_risk_score "Guaranteed 100% profit, risk free" = 75 := by
      rw [campaign_risk_score_eq, hc]
      norm_num
    have hassess : create_fund_assessment "Guaranteed 100% profit, risk free" =
        (campaign_risk_score "Guaranteed 100% profit, risk free",
         trust_label (campaign_risk_score "Guaranteed 100% profit, risk free")) := rfl
    rw [hassess, hrs]
    have hl : trust_label 75 = "High Risk" := by decide
    rw [hl]

lemma parse_temp_range_2030 : parse_temp_range "20-30" = (20, 30) := by
  have h1 : (cleanTemp "20-30".data).splitOn '-' = ["20".data, "30".data] := by decide
  have h2 : floatRepr "20".data = some (false, 20, 0, 0, 0) := by decide
  have h3 : floatRepr "30".data = some (false, 30, 0, 0, 0) := by decide
  have hne : ("20-30".data : List Char) ≠ [] := by decide
  simp [parse_temp_range, hne, h1, parsePyFloat, h2, h3, ratOfRepr]

lemma temp_score_35_2030 : temp_score 35 20 30 = 60 := by
  norm_num [temp_score, clamp, pyInt]

lemma composite_score_example2 : composite_score 60 30 40 50 = 46 := by
  unfold composite_score
  rw [show composite_total 60 30 40 50 = 46 from by rw [composite_total_cast]; norm_num]
  rw [clamp_eq_self (by norm_num) (by norm_num)]
  rw [show (46 : ℚ) = ((46 : ℤ) : ℚ) from by norm_num, pyRound_intCast]

/-- C5: with current temperature 35, optimal range "20-30", unmatched
soil type, unmatched nutrient level, humidity 40 and no rain, the
weather-check pipeline yields sub-scores weather 60, soil 30,
nutrient 40, water 50, total score 46, risk label "Risk". -/
theorem weather_check_example2 :
    ∃ res, weather_check ⟨["Loamy"], "High", "20-30"⟩ "Sandy" "Low"
        (.response 200 ⟨35, "Clear", some 40, none⟩) = .ok (some res) ∧
      res.weather_component = 60 ∧ res.soil_component = 30 ∧
      res.nutrient_component = 40 ∧ res.water_component = 50 ∧
      res.total_score = 46 ∧ res.risk_label = "Risk" := by
  have hsoil : ¬(("Sandy" : String) ∈ (["Loamy"] : List String)) := by decide
  have hnut : ¬(("Low" : String) = "High") := by decide
  have hwater : ¬((0 : ℚ) < (none : Option ℚ).getD 0 ∨ (60 : ℚ) ≤ (some (40 : ℚ)).getD 50) := by
    norm_num
  have hrisk : risk_from_score 46 = ("Risk", "danger") := by decide
  refine ⟨⟨35, "Clear", 46, "Risk", "danger", 60, 30, 40, 50, 24, 9, 8, 5⟩, ?_,
    rfl, rfl, rfl, rfl, rfl, rfl⟩
  simp only [weather_check, fetch_weather]
  rw [if_neg (by omega : ¬(400 ≤ 200 ∧ 200 < 600))]
  simp only [parse_temp_range_2030, temp_score_35_2030, hsoil, hnut,
    if_false, if_neg hwater, composite_score_example2, hrisk,
    Option.getD_some, Option.getD_none, Except.ok.injEq, Option.some.injEq]
  norm_num [WeatherResult.mk.injEq, pyRound]
  rw [composite_score_example2, hrisk]
  exact ⟨rfl, rfl, rfl⟩

lemma parse_temp_range_cases (s : String) :
    parse_temp_range s = (0, 50) ∨
      ∃ a b x y, (cleanTemp s.data).splitOn '-' = [a, b] ∧
        parsePyFloat a = some x ∧ parsePyFloat b = some y ∧
        parse_temp_range s = (x, y) := by
  by_cases hs : s.data = []
  · left
    simp [parse_temp_range, hs]
  · unfold parse_temp_range
    rw [if_neg hs]
    rcases hsp : (cleanTemp s.data).splitOn '-' with _ | ⟨a, _ | ⟨b, _ | ⟨c, t⟩⟩⟩
    · left; rfl
    · left; rfl
    · cases hax : parsePyFloat a with
      | none => left; simp [hax]
      | some x =>
        cases hbx : parsePyFloat b with
        | none => left; simp [hax, hbx]
        | some y => right; exact ⟨a, b, x, y, rfl, hax, hbx, by simp [hax, hbx]⟩
    · left; rfl

lemma parse_temp_range_en_dash : parse_temp_range "20–30" = (20, 30) := by
  have h1 : (cleanTemp "20–30".data).splitOn '-' = ["20".data, "30".data] := by decide
  have h2 : floatRepr "20".data = some (false, 20, 0, 0, 0) := by decide
  have h3 : floatRepr "30".data = some (false, 30, 0, 0, 0) := by decide
  have hne : ("20–30".data : List Char) ≠ [] := by decide
  simp [parse_temp_range, hne, h1, parsePyFloat, h2, h3, ratOfRepr]

/-- C6: range parsing is total with fallback (0, 50): the empty string,
"N/A" and "10" (and in general any input whose cleaned form does not
split into exactly two tokens, or whose tokens are not numeric) yield
(0, 50); every input yields either the fallback or the two parsed
bounds (no other outcome, i.e. no exception); the en dash is accepted
like the hyphen, and "°C"/"C" and spaces are stripped before
splitting. -/
theorem parse_temp_range_total_default :
    parse_temp_range "" = (0, 50) ∧
    parse_temp_range "N/A" = (0, 50) ∧
    parse_temp_range "10" = (0, 50) ∧
    (∀ s : String, ((cleanTemp s.data).splitOn '-').length ≠ 2 →
      parse_temp_range s = (0, 50)) ∧
    (∀ s : String, ∀ a b, (cleanTemp s.data).splitOn '-' = [a, b] →
      parsePyFloat a = none ∨ parsePyFloat b = none →
      parse_temp_range s = (0, 50)) ∧
    (∀ s : String, parse_temp_range s = (0, 50) ∨
      ∃ a b x y, (cleanTemp s.data).splitOn '-' = [a, b] ∧
        parsePyFloat a = some x ∧ parsePyFloat b = some y ∧
        parse_temp_range s = (x, y)) ∧
    parse_temp_range "20–30" = parse_temp_range "20-30" ∧
    parse_temp_range "20-30°C" = (20, 30) ∧
    parse_temp_range " 20 - 30 C" = (20, 30) := by
  refine ⟨by simp [parse_temp_range], ?_, ?_, ?_, ?_, parse_temp_range_cases, ?_, ?_, ?_⟩
  · have h1 : (cleanTemp "N/A".data).splitOn '-' = ["N/A".data] := by decide
    have hne : ("N/A".data : List Char) ≠ [] := by decide
    simp [parse_temp_range, hne, h1]
  · have h1 : (cleanTemp "10".data).splitOn '-' = ["10".data] := by decide
    have hne : ("10".data : List Char) ≠ [] := by decide
    simp [parse_temp_range, hne, h1]
  · intro s hlen
    rcases parse_temp_range_cases s with h | ⟨a, b, x, y, hsp, _, _, _⟩
    · exact h
    · exact absurd (by rw [hsp]; rfl : ((cleanTemp s.data).splitOn '-').length = 2) hlen
  · intro s a b hsp hf
    rcases parse_temp_range_cases s with h | ⟨a', b', x, y, hsp', hax, hbx, _⟩
    · exact h
    · rw [hsp] at hsp'
      obtain ⟨rfl, rfl⟩ : a = a' ∧ b = b' := by simpa using hsp'
      rcases hf with hfa | hfb
      · rw [hfa] at hax; exact absurd hax (by simp)
      · rw [hfb] at hbx; exact absurd hbx (by simp)
  · rw [parse_temp_range_en_dash, parse_temp_range_2030]
  · have h1 : (cleanTemp "20-30°C".data).splitOn '-' = ["20".data, "30".data] := by decide
    have h2 : floatRepr "20".data = some (false, 20, 0, 0, 0) := by decide
    have h3 : floatRepr "30".data = some (false, 30, 0, 0, 0) := by decide
    have hne : ("20-30°C".data : List Char) ≠ [] := by decide
    simp [parse_temp_range, hne, h1, parsePyFloat, h2, h3, ratOfRepr]
  · have h1 : (cleanTemp " 20 - 30 C".data).splitOn '-' = ["20".data, "30".data] := by decide
    have h2 : floatRepr "20".data = some (false, 20, 0, 0, 0) := by decide
    have h3 : floatRepr "30".data = some (false, 30, 0, 0, 0) := by decide
    have hne : (" 20 - 30 C".data : List Char) ≠ [] := by decide
    simp [parse_temp_range, hne, h1, parsePyFloat, h2, h3, ratOfRepr]

/-- Witness for `parse_temp_range_total_default`: "10" has the wrong
token count, and "a-b" splits into two non-numeric tokens. -/
theorem parse_temp_range_total_default_witness :
    ((cleanTemp "10".data).splitOn '-').length ≠ 2 ∧
    parse_temp_range "10" = (0, 50) ∧
    (cleanTemp "a-b".data).splitOn '-' = ["a".data, "b".data] ∧
    parsePyFloat "a".data = none ∧
    parse_temp_range "a-b" = (0, 50) :=
  ⟨by decide, parse_temp_range_total_default.2.2.2.1 "10" (by decide),
   by decide, by decide,
   parse_temp_range_total_default.2.2.2.2.1 "a-b" "a".data "b".data (by decide)
     (Or.inl (by decide))⟩

/-- C7 counterexample: the string "30-20" parses to the pair (30, 20),
whose first component exceeds the second, so the claimed invariant
min ≤ max fails. -/
theorem parse_temp_range_order_cex :
    ¬((parse_temp_range "30-20").1 ≤ (parse_temp_range "30-20").2) := by
  have h : parse_temp_range "30-20" = (30, 20) := by
    have h1 : (cleanTemp "30-20".data).splitOn '-' = ["30".data, "20".data] := by decide
    have h2 : floatRepr "30".data = some (false, 30, 0, 0, 0) := by decide
    have h3 : floatRepr "20".data = some (false, 20, 0, 0, 0) := by decide
    have hne : ("30-20".data : List Char) ≠ [] := by decide
    simp [parse_temp_range, hne, h1, parsePyFloat, h2, h3, ratOfRepr]
  rw [h]
  norm_num

/-- C7 amended: the parsed pair satisfies min ≤ max except exactly when
the string parses successfully to two numeric bounds given in
descending order, which `parse_temp_range` returns verbatim (the
fallback (0, 50) and every ascending parse are ordered). -/
theorem parse_temp_range_order_amended :
    ∀ s : String, (parse_temp_range s).1 ≤ (parse_temp_range s).2 ∨
      ∃ a b x y, (cleanTemp s.data).splitOn '-' = [a, b] ∧
        parsePyFloat a = some x ∧ parsePyFloat b = some y ∧ y < x ∧
        parse_temp_range s = (x, y) := by
  intro s
  rcases parse_temp_range_cases s with h | ⟨a, b, x, y, hsp, hax, hbx, hres⟩
  · left; rw [h]; norm_num
  · by_cases hxy : x ≤ y
    · left; rw [hres]; exact hxy
    · right; exact ⟨a, b, x, y, hsp, hax, hbx, lt_of_not_le hxy, hres⟩

/-- C8 counterexample: a timeout failure of the weather fetch is not
caught (`except requests.HTTPError` does not match `requests.Timeout`),
so the route propagates the exception instead of reporting the error
with no scoring result. -/
theorem weather_check_timeout_cex :
    weather_check ⟨["Loamy"], "High", "20-30"⟩ "Sandy" "Low"
        (.transportError .timeoutError) = .error .timeoutError ∧
    weather_check ⟨["Loamy"], "High", "20-30"⟩ "Sandy" "Low"
        (.transportError .timeoutError) ≠ .ok none := by
  refine ⟨rfl, ?_⟩
  intro h
  exact Except.noConfusion h

/-- C8 amended: only `requests.HTTPError` — raised by
`raise_for_status` exactly for statuses in [400, 600) — is caught and
reported with no scoring result; a connection or timeout failure
propagates uncaught; and a response with any other status (e.g. 600 or
above) does not raise, so the route proceeds to produce a scoring
result. -/
theorem weather_check_error_amended :
    (∀ crop soil_type nutrient_level status body, 400 ≤ status → status < 600 →
      weather_check crop soil_type nutrient_level (.response status body) = .ok none) ∧
    (∀ crop soil_type nutrient_level e, e ≠ PyExc.httpError →
      weather_check crop soil_type nutrient_level (.transportError e) = .error e) ∧
    (∀ crop soil_type nutrient_level status body, ¬(400 ≤ status ∧ status < 600) →
      ∃ res, weather_check crop soil_type nutrient_level (.response status body) =
        .ok (some res)) := by
  refine ⟨?_, ?_, ?_⟩
  · intro crop st nl status body h1 h2
    simp only [weather_check, fetch_weather, if_pos (And.intro h1 h2)]
  · intro crop st nl e he
    cases e
    · exact absurd rfl he
    · rfl
    · rfl
  · intro crop st nl status body h
    simp only [weather_check, fetch_weather, if_neg h]
    exact ⟨_, rfl⟩

/-- Witness for `weather_check_error_amended`: a 404 response is caught
with no scoring result; a connection failure propagates; a status-600
response still yields a scoring result. -/
theorem weather_check_error_amended_witness :
    weather_check ⟨[], "", ""⟩ "" "" (.response 404 ⟨0, "", none, none⟩) = .ok none ∧
    weather_check ⟨[], "", ""⟩ "" "" (.transportError .connectionError) =
      .error .connectionError ∧
    ∃ res, weather_check ⟨[], "", ""⟩ "" "" (.response 600 ⟨0, "", none, none⟩) =
      .ok (some res) :=
  ⟨weather_check_error_amended.1 ⟨[], "", ""⟩ "" "" 404 ⟨0, "", none, none⟩
     (by norm_num) (by norm_num),
   weather_check_error_amended.2.1 ⟨[], "", ""⟩ "" "" .connectionError (by decide),
   weather_check_error_amended.2.2 ⟨[], "", ""⟩ "" "" 600 ⟨0, "", none, none⟩ (by omega)⟩

lemma update_score_fst (sc : List (String × ℚ)) (c : String) (p : ℚ) :
    (update_score sc c p).map Prod.fst = sc.map Prod.fst := by
  unfold update_score
  rw [List.map_map]
  apply List.map_congr_left
  intro e _
  by_cases h : e.1 = c <;> simp [h]

lemma foldl_scores_fst (key : List Char) (p : ℚ) (l : List (String × String))
    (sc : List (String × ℚ)) :
    (l.foldl
        (fun sc2 km => if substrIn km.1.data key then update_score sc2 km.2 p else sc2)
        sc).map Prod.fst = sc.map Prod.fst := by
  induction l generalizing sc with
  | nil => rfl
  | cons km l ih =>
    rw [List.foldl_cons, ih]
    by_cases h : substrIn km.1.data key
    · rw [if_pos h, update_score_fst]
    · rw [if_neg h]

lemma add_label_scores_fst (sc : List (String × ℚ)) (t : TopEntry) :
    (add_label_scores sc t).map Prod.fst = sc.map Prod.fst := by
  simp only [add_label_scores]
  exact foldl_scores_fst _ _ _ _

lemma top_fold_fst (top : List TopEntry) (sc : List (String × ℚ)) :
    (top.foldl add_label_scores sc).map Prod.fst = sc.map Prod.fst := by
  induction top generalizing sc with
  | nil => rfl
  | cons t ts ih => rw [List.foldl_cons, ih, add_label_scores_fst]

lemma mem_keys_lookup {l : List (String × String)} {a : String}
    (h : a ∈ l.map Prod.fst) : (l.lookup a).isSome := by
  induction l with
  | nil => simp at h
  | cons kv t ih =>
    obtain ⟨k, v⟩ := kv
    by_cases hk : a = k
    · subst hk
      simp [List.lookup]
    · have ha : a ∈ t.map Prod.fst := by
        simp only [List.map_cons, List.mem_cons] at h
        exact h.resolve_left hk
      have hbeq : (a == k) = false := beq_eq_false_iff_ne.mpr hk
      simpa [List.lookup, hbeq] using ih ha

lemma crop_suggestions_ne_nil (top : List TopEntry) : crop_suggestions top ≠ [] := by
  simp only [crop_suggestions]
  split_ifs with h
  · simp
  · exact h

lemma foldl_scores_id (key : List Char) (p : ℚ) (l : List (String × String))
    (sc : List (String × ℚ)) (h : ∀ km ∈ l, substrIn km.1.data key = false) :
    l.foldl
        (fun sc2 km => if substrIn km.1.data key then update_score sc2 km.2 p else sc2)
        sc = sc := by
  induction l generalizing sc with
  | nil => rfl
  | cons km l ih =>
    rw [List.foldl_cons, if_neg (by simp [h km (List.mem_cons_self _ _)]),
      ih _ (fun km2 hm => h km2 (List.mem_cons_of_mem _ hm))]

lemma add_label_scores_id {t : TopEntry} (sc : List (String × ℚ))
    (h : ∀ km ∈ LABEL_MAP, substrIn km.1.data (pyLower t.label.data) = false) :
    add_label_scores sc t = sc := by
  simp only [add_label_scores]
  exact foldl_scores_id _ _ _ _ h

lemma top_fold_id (top : List TopEntry) (sc : List (String × ℚ))
    (h : ∀ t ∈ top, ∀ km ∈ LABEL_MAP,
      substrIn km.1.data (pyLower t.label.data) = false) :
    top.foldl add_label_scores sc = sc := by
  induction top generalizing sc with
  | nil => rfl
  | cons t ts ih =>
    rw [List.foldl_cons, add_label_scores_id sc (h t (List.mem_cons_self _ _)),
      ih _ (fun t2 hm => h t2 (List.mem_cons_of_mem _ hm))]

lemma crop_suggestions_mem (top : List TopEntry) :
    ∀ name ∈ crop_suggestions top, (NEPAL_CROPS.lookup name).isSome := by
  intro name hname
  simp only [crop_suggestions] at hname
  split_ifs at hname with h
  · simp only [List.mem_cons, List.not_mem_nil, or_false] at hname
    rcases hname with rfl | rfl | rfl <;> decide
  · have h1 := List.take_subset 3 _ hname
    obtain ⟨e, he, rfl⟩ := List.mem_map.mp h1
    have he2 := List.mem_of_mem_filter he
    have hperm := List.mergeSort_perm
      (top.foldl add_label_scores (NEPAL_CROPS.map (fun p => (p.1, (0 : ℚ)))))
      (fun x y => decide (y.2 ≤ x.2))
    have he3 := hperm.mem_iff.mp he2
    have hfst : (top.foldl add_label_scores
        (NEPAL_CROPS.map (fun p => (p.1, (0 : ℚ))))).map Prod.fst =
        NEPAL_CROPS.map Prod.fst := by
      rw [top_fold_fst, List.map_map]
      exact List.map_congr_left (fun p _ => rfl)
    have hmem : e.1 ∈ NEPAL_CROPS.map Prod.fst := by
      rw [← hfst]
      exact List.mem_map_of_mem _ he3
    exact mem_keys_lookup hmem

lemma crop_suggestions_len (top : List TopEntry) :
    (crop_suggestions top).length ≤ 3 := by
  simp only [crop_suggestions]
  split_ifs with h
  · norm_num
  · rw [List.length_take]
    exact min_le_left _ _

lemma crop_suggestions_fallback (top : List TopEntry)
    (h : ∀ t ∈ top, ∀ km ∈ LABEL_MAP,
      substrIn km.1.data (pyLower t.label.data) = false) :
    crop_suggestions top = ["Rice", "Maize", "Wheat"] := by
  simp only [crop_suggestions]
  rw [top_fold_id top _ h]
  have hzero : ∀ e ∈ (NEPAL_CROPS.map (fun p => (p.1, (0 : ℚ)))).mergeSort
      (fun x y => decide (y.2 ≤ x.2)), e.2 = 0 := by
    intro e he
    have := (List.mergeSort_perm (NEPAL_CROPS.map (fun p => (p.1, (0 : ℚ))))
      (fun x y => decide (y.2 ≤ x.2))).mem_iff.mp he
    obtain ⟨p, _, rfl⟩ := List.mem_map.mp this
    rfl
  have hfil : ((NEPAL_CROPS.map (fun p => (p.1, (0 : ℚ)))).mergeSort
      (fun x y => decide (y.2 ≤ x.2))).filter (fun e => decide (0 < e.2)) = [] := by
    rw [List.filter_eq_nil_iff]
    intro e he
    rw [hzero e he]
    norm_num
  rw [hfil]
  rfl

lemma predict_crop_cons_isSome (t0 : TopEntry) (rest : List TopEntry) :
    (predict_crop (t0 :: rest)).isSome := by
  by_cases hp : looks_like_plant (t0 :: rest)
  · obtain ⟨s0, srest, hs⟩ : ∃ s0 srest, crop_suggestions (t0 :: rest) = s0 :: srest := by
      cases hcs : crop_suggestions (t0 :: rest) with
      | nil => exact absurd hcs (crop_suggestions_ne_nil _)
      | cons a l => exact ⟨a, l, rfl⟩
    simp [predict_crop, hp, hs]
  · simp [predict_crop, hp]

/-- C9: for every nonempty classifier output, `predict_crop` succeeds;
the chosen crop is the first suggestion when the plant-likelihood flag
is true and "Unknown" otherwise; the confidence is always the top-1 raw
probability rounded to a percentage, whichever crop was chosen; and the
scientific name is the total table lookup with fallback "Unknown". -/
theorem predict_crop_contract (t0 : TopEntry) (rest : List TopEntry) :
    ∃ r, predict_crop (t0 :: rest) = some r ∧
      r.crop = (if looks_like_plant (t0 :: rest) then
          (crop_suggestions (t0 :: rest)).headD "Unknown" else "Unknown") ∧
      r.confidence = pyRound (t0.prob * 100) ∧
      r.scientific = (NEPAL_CROPS.lookup r.crop).getD "Unknown" ∧
      r.is_plant = looks_like_plant (t0 :: rest) ∧
      r.suggestions = crop_suggestions (t0 :: rest) := by
  by_cases hp : looks_like_plant (t0 :: rest)
  · obtain ⟨s0, srest, hs⟩ : ∃ s0 srest, crop_suggestions (t0 :: rest) = s0 :: srest := by
      cases hcs : crop_suggestions (t0 :: rest) with
      | nil => exact absurd hcs (crop_suggestions_ne_nil _)
      | cons a l => exact ⟨a, l, rfl⟩
    refine ⟨{ crop := s0,
              scientific := (NEPAL_CROPS.lookup s0).getD "Unknown",
              confidence := pyRound (t0.prob * 100),
              raw_label := String.mk (underscoreToSpace t0.label.data),
              is_plant := looks_like_plant (t0 :: rest),
              suggestions := crop_suggestions (t0 :: rest) }, ?_, ?_, rfl, rfl, rfl, rfl⟩
    · simp [predict_crop, hp, hs]
    · rw [if_pos hp, hs]
      rfl
  · refine ⟨{ crop := "Unknown",
              scientific := (NEPAL_CROPS.lookup "Unknown").getD "Unknown",
              confidence := pyRound (t0.prob * 100),
              raw_label := String.mk (underscoreToSpace t0.label.data),
              is_plant := looks_like_plant (t0 :: rest),
              suggestions := crop_suggestions (t0 :: rest) }, ?_, ?_, rfl, rfl, rfl, rfl⟩
    · simp [predict_crop, hp]
    · rw [if_neg hp]

/-- C10: `_crop_suggestions` always returns a nonempty list of at most
3 names, each a key of `NEPAL_CROPS`; when no classifier label matches
any `LABEL_MAP` pattern it returns the fixed fallback
["Rice", "Maize", "Wheat"]; consequently `predict_crop` on a nonempty
classifier output never fails on the first-suggestion access. -/
theorem crop_suggestions_safe (top : List TopEntry) :
    crop_suggestions top ≠ [] ∧
    (crop_suggestions top).length ≤ 3 ∧
    (∀ name ∈ crop_suggestions top, (NEPAL_CROPS.lookup name).isSome) ∧
    ((∀ t ∈ top, ∀ km ∈ LABEL_MAP,
        substrIn km.1.data (pyLower t.label.data) = false) →
      crop_suggestions top = ["Rice", "Maize", "Wheat"]) ∧
    (∀ t0 rest, top = t0 :: rest → (predict_crop top).isSome) :=
  ⟨crop_suggestions_ne_nil top, crop_suggestions_len top,
   crop_suggestions_mem top, crop_suggestions_fallback top,
   fun t0 rest h => h ▸ predict_crop_cons_isSome t0 rest⟩

/-- Witness for `crop_suggestions_safe` on a classifier output whose
labels match nothing: the fallback list is produced and `predict_crop`
succeeds. -/
theorem crop_suggestions_safe_witness :
    crop_suggestions [⟨"n03000134", "chainlink_fence", 8/10⟩] = ["Rice", "Maize", "Wheat"] ∧
    (predict_crop [⟨"n03000134", "chainlink_fence", 8/10⟩]).isSome :=
  ⟨(crop_suggestions_safe [⟨"n03000134", "chainlink_fence", 8/10⟩]).2.2.2.1
     (by decide),
   (crop_suggestions_safe [⟨"n03000134", "chainlink_fence", 8/10⟩]).2.2.2.2
     ⟨"n03000134", "chainlink_fence", 8/10⟩ [] rfl⟩
